import Mathlib

/-!
Verification of the request-routing and SQL-mediation layer of the
Redshift MCP server (`src/redshift_mcp_server/server.py`).

The embedding models the Python module shallowly:
* scalar values coming back from the warehouse driver are `Scalar`,
  stringified by Python `str` semantics (`pystr`);
* the external warehouse driver is a `Driver` oracle: whether `connect`
  succeeds and, per SQL text and parameter list, whether `execute` raises
  and what cursor description / rows it yields;
* each request handler returns a `PyResult` (normal return or a raised
  exception carrying its message) together with a `Trace` counting
  successful connection opens, connection closes, and the SQL texts sent.

Python-specific semantics that the embedding reproduces faithfully:
* `re.match(r'^...$', s)` also succeeds when `s` is a match followed by a
  single trailing newline, because `$` matches before a final newline;
* a handler whose `finally: conn.close()` runs while `conn` was never
  bound (the `connect` call itself raised) raises `UnboundLocalError`,
  replacing any pending return or exception;
* `str(None)` is `"None"`, and `"\n".join` adds no trailing newline.
-/

/-- A scalar cell value as delivered by the driver: string, integer,
Python `None`, or boolean. -/
inductive Scalar where
  | s : String → Scalar
  | i : Int → Scalar
  | none : Scalar
  | b : Bool → Scalar
deriving DecidableEq, Repr

/-- Python `str` applied to a scalar: `str(None) = "None"`,
`str(True) = "True"`, `str(False) = "False"`. -/
def pystr : Scalar → String
  | .s t => t
  | .i n => toString n
  | .none => "None"
  | .b true => "True"
  | .b false => "False"

/-- Python truthiness of a scalar: empty string, zero, `None` and
`False` are falsy. -/
def pyTruthy : Scalar → Bool
  | .s t => t ≠ ""
  | .i n => n ≠ 0
  | .none => false
  | .b x => x

/-- Outcome of a Python call: a normal return, or a raised exception
carrying its rendered message. -/
inductive PyResult (α : Type) where
  | ok : α → PyResult α
  | raised : String → PyResult α
deriving DecidableEq, Repr

/-- Outcome of `cursor.execute` for one statement: the driver raises, or
yields a cursor description (`none` when the statement produced no result
set) and the rows `fetchall` would return. -/
inductive ExecResult where
  | raises : String → ExecResult
  | result : Option (List String) → List (List Scalar) → ExecResult
deriving DecidableEq

/-- The external warehouse driver: whether `redshift_connector.connect`
succeeds, and the behaviour of `cursor.execute` keyed by SQL text and
bound parameter list. -/
structure Driver where
  connect : Bool
  exec : String → List String → ExecResult

/-- Observable side effects of one request: successful connection opens,
connection closes, and the SQL texts sent to the warehouse. -/
structure Trace where
  opens : Nat
  closes : Nat
  executed : List String
deriving DecidableEq, Repr

/-- Message of the `UnboundLocalError` raised when `finally: conn.close()`
runs after `connect` itself raised, leaving `conn` unbound. -/
def unboundConnMsg : String :=
  "UnboundLocalError: local variable conn referenced before assignment"

/-- Identifier body check of the source pattern `[a-zA-Z_][a-zA-Z0-9_]*`:
first char ASCII letter or underscore, rest ASCII letters, digits or
underscores. -/
def identCore : List Char → Bool
  | [] => false
  | c :: cs => (c.isAlpha || c == '_') && cs.all (fun d => d.isAlphanum || d == '_')

/-- `is_valid_identifier` from the source:
`bool(re.match(r'^[a-zA-Z_][a-zA-Z0-9_]*$', name))`. Python `$` matches
at the end of the string and also just before a newline that ends the
string, so a core match followed by one trailing newline is accepted. -/
def is_valid_identifier (name : String) : Bool :=
  identCore name.data ||
    (match name.data.reverse with
     | '\n' :: rest => identCore rest.reverse
     | _ => false)

/-- Spec-side pattern, written from the spec words: the string as a whole
is in the language `^[A-Za-z_][A-Za-z0-9_]*$`, i.e. one character in
`A-Z`, `a-z` or `_`, followed by characters in `A-Z`, `a-z`, `0-9` or
`_`. Used only to compare the source validator against the spec. -/
def specIdentMatch (s : String) : Bool :=
  match s.data with
  | [] => false
  | c :: cs =>
      (('A' ≤ c && c ≤ 'Z') || ('a' ≤ c && c ≤ 'z') || c == '_') &&
      cs.all (fun d =>
        ('A' ≤ d && d ≤ 'Z') || ('a' ≤ d && d ≤ 'z') ||
        ('0' ≤ d && d ≤ '9') || d == '_')

/-- Result serializer from `call_tool`:
`"\n".join([",".join(columns)] + [",".join(map(str, row)) for row in rows])`. -/
def serialize_result (columns : List String) (rows : List (List Scalar)) : String :=
  String.intercalate "\n"
    (String.intercalate "," columns ::
      rows.map (fun row => String.intercalate "," (row.map pystr)))

/-- Single-quote character, used to reproduce the SQL literals of the
source without bare quote characters in the Lean strings. -/
def quoteMark : String := String.singleton '\x27'

/-- Schema-listing SQL of `_get_schemas`, reproduced from the source
triple-quoted literal. -/
def schemas_sql : String :=
  "\n        SELECT nspname AS schema_name\n        FROM pg_namespace\n        WHERE nspname NOT LIKE "
    ++ quoteMark ++ "pg_%" ++ quoteMark ++
  "\n            AND nspname != " ++ quoteMark ++ "information_schema" ++ quoteMark ++
  "\n            AND nspname != " ++ quoteMark ++ "catalog_history" ++ quoteMark ++
  "\n        ORDER BY schema_name\n   "

/-- Table-listing SQL of `_get_tables`, reproduced from the source
literal; the schema arrives as a bound parameter (`%s`). -/
def tables_sql : String :=
  "\n        SELECT table_name FROM information_schema.tables\n        WHERE table_schema = %s\n        GROUP BY table_name\n        ORDER BY table_name\n   "

/-- Python `args.get(key)` over the tool-call argument mapping. -/
def getArg (args : List (String × String)) (key : String) : Option String :=
  args.lookup key

/-- Python truthiness of `args.get(key)`: `None` and the empty string are
falsy. -/
def truthyOpt : Option String → Bool
  | Option.none => false
  | some s => s ≠ ""

/-- SQL resolution phase of `call_tool` (the `if/elif` chain before the
`try` block): either a raised `ValueError` message, or the SQL text that
the dispatcher will execute. An unrecognized tool name leaves `sql` as
the initial empty string. -/
def resolve_sql (name : String) (args : List (String × String)) : Except String String :=
  if name = "execute_sql" then
    if truthyOpt (getArg args "sql") then .ok ((getArg args "sql").getD "")
    else .error "sql parameter is required when calling execute_sql tool"
  else if name = "analyze_table" then
    if truthyOpt (getArg args "schema") && truthyOpt (getArg args "table") then
      .ok ("ANALYZE " ++ (getArg args "schema").getD "" ++ "." ++ (getArg args "table").getD "")
    else .error "'schema' and 'table' parameters are required when calling analyze_table tool"
  else if name = "get_execution_plan" then
    if truthyOpt (getArg args "sql") then .ok ("EXPLAIN " ++ (getArg args "sql").getD "")
    else .error "sql parameter is required when calling get_query_plan tool"
  else .ok ""

/-- `call_tool` from the source. Phase 1 resolves the SQL (raising on a
missing required argument, before any connection attempt); phase 2 runs
the `try/except/finally` block: connect, execute, and render. A failing
`connect` is caught by the `except` clause, but the `finally` clause then
evaluates `conn.close()` with `conn` unbound, so the request raises
`UnboundLocalError` instead of returning the prepared error text. -/
def call_tool (d : Driver) (name : String) (args : List (String × String)) :
    PyResult (List String) × Trace :=
  match resolve_sql name args with
  | .error m => (.raised m, ⟨0, 0, []⟩)
  | .ok sql =>
    if d.connect = false then (.raised unboundConnMsg, ⟨0, 0, []⟩)
    else
      match d.exec sql [] with
      | .raises m => (.ok ["Error executing query: " ++ m], ⟨1, 1, [sql]⟩)
      | .result desc rows =>
        if name = "analyze_table" then
          (.ok ["Successfully analyzed table " ++ (getArg args "schema").getD "" ++ "."
                ++ (getArg args "table").getD ""], ⟨1, 1, [sql]⟩)
        else
          match desc with
          | Option.none => (.ok ["Successfully execute sql " ++ sql], ⟨1, 1, [sql]⟩)
          | some cols => (.ok [serialize_result cols rows], ⟨1, 1, [sql]⟩)

/-- First cell of each row, as Python `[row[0] for row in rows]`: an
empty row raises `IndexError`. -/
def firstCells : List (List Scalar) → Except String (List Scalar)
  | [] => .ok []
  | [] :: _ => .error "IndexError: tuple index out of range"
  | (v :: _) :: rest => (firstCells rest).map (v :: ·)

/-- String contents of a list of cells, `none` when some cell is not a
`str`. -/
def strCells : List Scalar → Option (List String)
  | [] => some []
  | .s t :: rest => (strCells rest).map (t :: ·)
  | _ :: _ => Option.none

/-- Python `"\n".join(cells)`: every element must be a `str`, otherwise
`TypeError`. -/
def joinLinesStr (cells : List Scalar) : Except String String :=
  match strCells cells with
  | some ts => .ok (String.intercalate "\n" ts)
  | Option.none => .error "TypeError: sequence item: expected str instance"

/-- `_get_schemas` from the source: execute the catalog query, take the
first cell of each row, join with newlines. Returns the resource text
and the SQL texts sent. -/
def get_schemas (d : Driver) : PyResult (Option String) × List String :=
  match d.exec schemas_sql [] with
  | .raises m => (.raised m, [schemas_sql])
  | .result _ rows =>
    match firstCells rows with
    | .error m => (.raised m, [schemas_sql])
    | .ok cells =>
      match joinLinesStr cells with
      | .error m => (.raised m, [schemas_sql])
      | .ok text => (.ok (some text), [schemas_sql])

/-- `_get_tables` from the source: parameterized query on the metadata
view, first cell of each row, joined with newlines. -/
def get_tables (d : Driver) (schema : String) : PyResult (Option String) × List String :=
  match d.exec tables_sql [schema] with
  | .raises m => (.raised m, [tables_sql])
  | .result _ rows =>
    match firstCells rows with
    | .error m => (.raised m, [tables_sql])
    | .ok cells =>
      match joinLinesStr cells with
      | .error m => (.raised m, [tables_sql])
      | .ok text => (.ok (some text), [tables_sql])

/-- `_get_table_ddl` from the source: validate both identifiers, then
execute `show table schema.table` and return the first cell of the first
row when truthy, else a "No DDL found" text. -/
def get_table_ddl (d : Driver) (schema table : String) :
    PyResult (Option String) × List String :=
  if is_valid_identifier schema = false ∨ is_valid_identifier table = false then
    (.raised ("Invalid schema or table name: " ++ schema ++ "." ++ table), [])
  else
    let sql := "show table " ++ schema ++ "." ++ table
    match d.exec sql [] with
    | .raises m => (.raised m, [sql])
    | .result _ rows =>
      match rows.head? with
      | some (v :: _) =>
        if pyTruthy v then (.ok (some (pystr v)), [sql])
        else (.ok (some ("No DDL found for " ++ schema ++ "." ++ table)), [sql])
      | _ => (.ok (some ("No DDL found for " ++ schema ++ "." ++ table)), [sql])

/-- `_get_table_statistic` from the source: validate both identifiers,
execute `ANALYZE schema.table;`, return a fixed confirmation text. -/
def get_table_statistic (d : Driver) (schema table : String) :
    PyResult (Option String) × List String :=
  if is_valid_identifier schema = false ∨ is_valid_identifier table = false then
    (.raised ("Invalid schema or table name: " ++ schema ++ "." ++ table), [])
  else
    let sql := "ANALYZE " ++ schema ++ "." ++ table ++ ";"
    match d.exec sql [] with
    | .raises m => (.raised m, [sql])
    | .result _ _ =>
      (.ok (some ("ANALYZE " ++ schema ++ "." ++ table ++ " command executed")), [sql])

/-- Routing chain of `read_resource` over the split path, mirroring the
source `if/elif` chain: the first branch tests only `path_parts[0]`, the
others require exact lengths; no branch matching returns Python `None`
(modelled as `Option.none`). -/
def route (d : Driver) (parts : List String) : PyResult (Option String) × List String :=
  if parts.head? = some "schemas" then get_schemas d
  else if parts.length = 2 ∧ parts.get? 1 = some "tables" then
    get_tables d (parts.headD "")
  else if parts.length = 3 ∧ parts.get? 2 = some "ddl" then
    get_table_ddl d (parts.headD "") ((parts.get? 1).getD "")
  else if parts.length = 3 ∧ parts.get? 2 = some "statistic" then
    get_table_statistic d (parts.headD "") ((parts.get? 1).getD "")
  else (.ok Option.none, [])

/-- Python `uri_str.startswith("rs://")`, by characters. -/
def pyStartsWith (s pre : String) : Bool := s.data.take pre.data.length = pre.data

/-- Python `str.split('/')`, by characters: every slash separates, empty
pieces are kept, the split of the empty string is `[""]`. -/
def splitSlash : List Char → List String
  | [] => [""]
  | c :: rest =>
    if c = '/' then "" :: splitSlash rest
    else
      match splitSlash rest with
      | [] => [String.mk [c]]
      | p :: ps => String.mk (c :: p.data) :: ps

/-- Path parts of `read_resource`: `uri_str[6:].split('/')`. -/
def uriParts (uri : String) : List String := splitSlash (uri.data.drop 6)

/-- `read_resource` from the source: scheme check before the `try`; then
connect, split `uri_str[6:]` on `/`, route; any exception from the body
is re-raised as `RuntimeError("Redshift Error: ...")`; `finally` closes
the connection. A failing `connect` leaves `conn` unbound, so the
`finally` clause raises `UnboundLocalError`. -/
def read_resource (d : Driver) (uri : String) : PyResult (Option String) × Trace :=
  if pyStartsWith uri "rs://" = false then
    (.raised ("Invalid URI schema: " ++ uri), ⟨0, 0, []⟩)
  else if d.connect = false then (.raised unboundConnMsg, ⟨0, 0, []⟩)
  else
    match route d (uriParts uri) with
    | (.ok v, ex) => (.ok v, ⟨1, 1, ex⟩)
    | (.raised m, ex) => (.raised ("Redshift Error: " ++ m), ⟨1, 1, ex⟩)

/-- LIKE pattern `pg_%` of the schema-listing query: `p`, `g`, one
arbitrary character, then any suffix. -/
def likePgPattern (n : String) : Bool := pyStartsWith n "pg" && n.data.length ≥ 3

/-- Filter of the schema-listing query: names matching `pg_%`,
`information_schema` and `catalog_history` are excluded. -/
def keepSchema (n : String) : Bool :=
  !likePgPattern n && n ≠ "information_schema" && n ≠ "catalog_history"

/-- Lexicographic comparison of character lists, by code point: the
order `ORDER BY` uses on plain ASCII names. -/
def charsLe : List Char → List Char → Bool
  | [], _ => true
  | _ :: _, [] => false
  | a :: as, b :: bs => a < b || (a == b && charsLe as bs)

/-- Ascending name order of the schema-listing query. -/
def strLeP (a b : String) : Prop := charsLe a.data b.data = true

instance : DecidableRel strLeP := fun a b =>
  inferInstanceAs (Decidable (charsLe a.data b.data = true))

/-- Rows the warehouse returns for `schemas_sql`, modelling standard SQL
semantics of the query in `_get_schemas` over a catalog of schema names:
filter by `keepSchema`, order by name ascending. -/
def schemasQueryRows (catalog : List String) : List String :=
  (catalog.filter keepSchema).insertionSort strLeP

/-- Driver for a warehouse that holds the given catalog of schemas and
answers only the schema-listing query. -/
def catalogDriver (catalog : List String) : Driver where
  connect := true
  exec := fun sql _ =>
    if sql = schemas_sql then
      .result (some ["schema_name"]) ((schemasQueryRows catalog).map (fun n => [.s n]))
    else .raises "relation does not exist"

/-- Driver whose connection succeeds and whose every statement succeeds
with no result set. -/
def plainDriver : Driver where
  connect := true
  exec := fun _ _ => .result Option.none []

/-- Driver whose connection attempt raises. -/
def connFailDriver : Driver where
  connect := false
  exec := fun _ _ => .raises "unreachable"

/-- Driver whose connection succeeds and whose every statement raises. -/
def raiseDriver : Driver where
  connect := true
  exec := fun _ _ => .raises "boom"

/-- Successful-text test on a resource-read outcome: a normal return
carrying a result string (Python `None` returns and raised exceptions
are not successful results). -/
def isSuccessText : PyResult (Option String) → Bool
  | .ok (some _) => true
  | _ => false

/-- Header-then-rows lines of the serializer output, written from the
spec words: first the comma-joined column names, then one line of
comma-joined stringified values per row. -/
def specLines (cols : List String) (rows : List (List Scalar)) : List String :=
  String.intercalate "," cols ::
    rows.map (fun row => String.intercalate "," (row.map pystr))

/-- Lines joined by single newlines, with no trailing newline, written
as plain recursion for comparison with the serializer. -/
def joinLines : List String → String
  | [] => ""
  | [l] => l
  | l :: ls => l ++ "\n" ++ joinLines ls

/-- Demo catalog of the schema-listing scenario. -/
def demoCatalog : List String :=
  ["public", "finance", "pg_catalog", "information_schema"]

/-! ## Helper lemmas -/

theorem charsLe_total : ∀ x y : List Char, charsLe x y = true ∨ charsLe y x = true := by
  intro x
  induction x with
  | nil => intro y; left; rfl
  | cons a as ih =>
    intro y
    cases y with
    | nil => right; rfl
    | cons b bs =>
      rcases lt_trichotomy a b with hab | hab | hab
      · left; simp [charsLe, hab]
      · subst hab
        rcases ih bs with h | h
        · left; simp [charsLe, h]
        · right; simp [charsLe, h]
      · right; simp [charsLe, hab]

theorem charsLe_trans : ∀ x y z : List Char,
    charsLe x y = true → charsLe y z = true → charsLe x z = true := by
  intro x
  induction x with
  | nil => intro y z _ _; rfl
  | cons a as ih =>
    intro y z hxy hyz
    cases y with
    | nil => simp [charsLe] at hxy
    | cons b bs =>
      cases z with
      | nil => simp [charsLe] at hyz
      | cons c cs =>
        simp only [charsLe, Bool.or_eq_true, Bool.and_eq_true, beq_iff_eq,
          decide_eq_true_eq] at hxy hyz ⊢
        rcases hxy with hab | ⟨hab, hrest⟩
        · rcases hyz with hbc | ⟨hbc, _⟩
          · exact Or.inl (lt_trans hab hbc)
          · exact Or.inl (hbc ▸ hab)
        · subst hab
          rcases hyz with hbc | ⟨hbc, hrest2⟩
          · exact Or.inl hbc
          · exact Or.inr ⟨hbc, ih bs cs hrest hrest2⟩

instance : IsTotal String strLeP := ⟨fun a b => charsLe_total a.data b.data⟩

instance : IsTrans String strLeP := ⟨fun a b c => charsLe_trans a.data b.data c.data⟩

/-! ## Claim C1: connection closed exactly once per request -/

/-- C1. In every request — resource read or tool call — the number of
connection closes equals the number of successful connection opens, and
at most one connection is opened: whenever a warehouse connection is
successfully opened, its close runs exactly once before the request
returns control, on every control-flow exit (normal success, validation
failure after open, driver exception during execution). -/
theorem connection_close_balanced :
    ∀ (d : Driver) (name : String) (args : List (String × String)) (uri : String),
    ((call_tool d name args).2.closes = (call_tool d name args).2.opens ∧
      (call_tool d name args).2.opens ≤ 1) ∧
    ((read_resource d uri).2.closes = (read_resource d uri).2.opens ∧
      (read_resource d uri).2.opens ≤ 1) := by
  intro d name args uri
  constructor
  · unfold call_tool
    rcases hr : resolve_sql name args with m | sql
    · simp [hr]
    · simp only [hr]
      rcases hc : d.connect
      · exact ⟨rfl, Nat.zero_le 1⟩
      · rcases he : d.exec sql [] with m | ⟨desc, rows⟩
        · exact ⟨rfl, Nat.le_refl 1⟩
        · by_cases hn : name = "analyze_table"
          · simp [hn]
          · rcases desc with _ | cols <;> simp [hn]
  · unfold read_resource
    by_cases hu : pyStartsWith uri "rs://" = false
    · rw [if_pos hu]
      exact ⟨rfl, Nat.zero_le 1⟩
    · rw [if_neg hu]
      rcases hc : d.connect
      · exact ⟨rfl, Nat.zero_le 1⟩
      · rcases hroute : route d (uriParts uri) with ⟨res, ex⟩
        rcases res with v | m
        · exact ⟨rfl, Nat.le_refl 1⟩
        · exact ⟨rfl, Nat.le_refl 1⟩

/-! ## Claim C9: empty `execute_sql` argument fails before any connection -/

/-- C9. An `execute_sql` tool call whose `sql` argument is missing or
empty raises the invalid-arguments `ValueError` with zero connections
opened and no SQL sent. -/
theorem execute_sql_missing_arg_short_circuits :
    ∀ (d : Driver) (args : List (String × String)),
    truthyOpt (getArg args "sql") = false →
    call_tool d "execute_sql" args =
      (.raised "sql parameter is required when calling execute_sql tool", ⟨0, 0, []⟩) := by
  intro d args h
  unfold call_tool resolve_sql
  simp [h]

/-- C9 witness: the empty `sql` argument at a live driver. -/
theorem execute_sql_missing_arg_witness :
    call_tool plainDriver "execute_sql" [("sql", "")] =
      (.raised "sql parameter is required when calling execute_sql tool", ⟨0, 0, []⟩) :=
  execute_sql_missing_arg_short_circuits plainDriver [("sql", "")] (by decide)

/-! ## Claim C6: `analyze_table` builds SQL by interpolation, no validation -/

/-- C6. An `analyze_table` tool call with any non-empty `schema` and
`table` arguments — validated or not — executes exactly the SQL text
`ANALYZE schema.table` built by direct string interpolation, and on
execution success returns the confirmation text naming `schema.table`
regardless of the cursor description or rows. -/
theorem analyze_table_interpolates_and_confirms :
    ∀ (d : Driver) (args : List (String × String)) (schema table : String)
      (desc : Option (List String)) (rows : List (List Scalar)),
    getArg args "schema" = some schema →
    getArg args "table" = some table →
    schema ≠ "" → table ≠ "" →
    d.connect = true →
    d.exec ("ANALYZE " ++ schema ++ "." ++ table) [] = .result desc rows →
    call_tool d "analyze_table" args =
      (.ok ["Successfully analyzed table " ++ schema ++ "." ++ table],
        ⟨1, 1, ["ANALYZE " ++ schema ++ "." ++ table]⟩) := by
  intro d args schema table desc rows hs ht hs0 ht0 hc he
  unfold call_tool resolve_sql
  simp [hs, ht, hs0, ht0, hc, he, truthyOpt]

/-- C6 witness: the scenario `schema="sales"`, `table="orders"` executes
`ANALYZE sales.orders` and confirms success naming `sales.orders`. -/
theorem analyze_table_witness :
    call_tool plainDriver "analyze_table" [("schema", "sales"), ("table", "orders")] =
      (.ok ["Successfully analyzed table " ++ "sales" ++ "." ++ "orders"],
        ⟨1, 1, ["ANALYZE " ++ "sales" ++ "." ++ "orders"]⟩) :=
  analyze_table_interpolates_and_confirms plainDriver
    [("schema", "sales"), ("table", "orders")] "sales" "orders" Option.none []
    rfl rfl (by decide) (by decide) rfl rfl

/-! ## Claim C8: exceptions at the tool dispatcher boundary -/

/-- C8 counterexample: a tool call whose connection opening raises does
not return textual error content — the `except` clause prepares it, but
the `finally` clause hits the unbound `conn` and the request raises an
`UnboundLocalError` to the transport. -/
theorem tool_call_conn_failure_raises :
    (call_tool connFailDriver "execute_sql" [("sql", "select 1")]).1 =
      .raised unboundConnMsg := by decide

/-- C8 amended. For every tool call that reaches execution (arguments
resolved, connection opened), an exception raised by the driver during
statement execution is caught at the dispatcher boundary and converted
into textual error content returned normally; the connection is still
closed exactly once. -/
theorem tool_call_exec_error_softened :
    ∀ (d : Driver) (name : String) (args : List (String × String)) (sql m : String),
    resolve_sql name args = .ok sql →
    d.connect = true →
    d.exec sql [] = .raises m →
    call_tool d name args =
      (.ok ["Error executing query: " ++ m], ⟨1, 1, [sql]⟩) := by
  intro d name args sql m hr hc he
  unfold call_tool
  simp [hr, hc, he]

/-- C8 witness: a driver that raises at execution yields error text, not
a raised exception. -/
theorem tool_call_exec_error_witness :
    call_tool raiseDriver "execute_sql" [("sql", "select 1")] =
      (.ok ["Error executing query: boom"], ⟨1, 1, ["select 1"]⟩) :=
  tool_call_exec_error_softened raiseDriver "execute_sql" [("sql", "select 1")]
    "select 1" "boom" rfl rfl rfl

/-! ## Claim C10: unknown tool names are not rejected -/

/-- C10 counterexample: with an unknown tool name and a failing
connection open, the caller receives neither a textual error message nor
a success text — the call raises `UnboundLocalError` out of the
dispatcher. -/
theorem unknown_tool_conn_failure_raises :
    (call_tool connFailDriver "made_up_tool" []).1 = .raised unboundConnMsg := by
  decide

/-- C10 amended. A tool call whose name is none of `execute_sql`,
`analyze_table` and `get_execution_plan` is not rejected and gets no
argument validation: when the connection opens, the dispatcher executes
the empty string as SQL and the caller receives textual content (an
error message, a generic success text, or serialized rows), never an
unknown-tool error; only a failing connection open escapes as a raised
exception. -/
theorem unknown_tool_executes_empty_sql :
    ∀ (d : Driver) (name : String) (args : List (String × String)),
    name ≠ "execute_sql" → name ≠ "analyze_table" → name ≠ "get_execution_plan" →
    d.connect = true →
    (call_tool d name args).2.executed = [""] ∧
    (call_tool d name args).2.opens = 1 ∧
    ∃ ts, (call_tool d name args).1 = .ok ts := by
  intro d name args h1 h2 h3 hc
  have hr : resolve_sql name args = .ok "" := by
    unfold resolve_sql
    simp [h1, h2, h3]
  unfold call_tool
  rcases he : d.exec "" [] with m | ⟨desc, rows⟩
  · simp [hr, hc, he]
  · rcases desc with _ | cols <;> simp [hr, hc, he, h2]

/-- C10 witness: an unknown tool name at a live driver executes the
empty SQL string and returns a generic success text. -/
theorem unknown_tool_witness :
    (call_tool plainDriver "made_up_tool" []).2.executed = [""] ∧
    (call_tool plainDriver "made_up_tool" []).2.opens = 1 ∧
    ∃ ts, (call_tool plainDriver "made_up_tool" []).1 = .ok ts :=
  unknown_tool_executes_empty_sql plainDriver "made_up_tool" []
    (by decide) (by decide) (by decide) rfl

/-! ## Claim C5: result serializer layout -/

theorem joinLines_append_head : ∀ (x y : String) (l : List String),
    joinLines ((x ++ y) :: l) = x ++ joinLines (y :: l) := by
  intro x y l
  cases l with
  | nil => rfl
  | cons b bs => simp [joinLines, String.append_assoc]

theorem intercalate_eq_joinLines : ∀ l : List String,
    String.intercalate "\n" l = joinLines l := by
  have go_eq : ∀ (as : List String) (acc : String),
      String.intercalate.go acc "\n" as = joinLines (acc :: as) := by
    intro as
    induction as with
    | nil => intro acc; rfl
    | cons b bs ih =>
      intro acc
      show String.intercalate.go (acc ++ "\n" ++ b) "\n" bs = _
      rw [ih (acc ++ "\n" ++ b), joinLines_append_head (acc ++ "\n") b bs]
      cases bs with
      | nil => simp [joinLines, String.append_assoc]
      | cons x xs => simp [joinLines, String.append_assoc]
  intro l
  cases l with
  | nil => rfl
  | cons a as => exact go_eq as a

/-- C5 counterexample: the serializer output on the spec scenario is not
`"a,b\n1,x\n2,\n"` — the null cell renders as `None` and there is no
trailing newline. -/
theorem serializer_counterexample :
    serialize_result ["a", "b"] [[.i 1, .s "x"], [.i 2, .none]] ≠ "a,b\n1,x\n2,\n" := by
  decide

/-- C5 amended. The serializer emits the comma-joined column names as
the first line and one comma-joined stringified row per subsequent line,
joined by single newlines with no trailing newline; a null scalar
renders as the literal text `None`, and the spec scenario yields
`"a,b\n1,x\n2,None"`. -/
theorem serializer_layout :
    (∀ (cols : List String) (rows : List (List Scalar)),
      serialize_result cols rows = joinLines (specLines cols rows)) ∧
    serialize_result ["a", "b"] [[.i 1, .s "x"], [.i 2, .none]] = "a,b\n1,x\n2,None" ∧
    pystr .none = "None" := by
  refine ⟨?_, by decide, rfl⟩
  intro cols rows
  unfold serialize_result specLines
  exact intercalate_eq_joinLines _

/-! ## Claim C2: the identifier validator against the spec pattern -/

theorem specIdentMatch_eq_identCore : ∀ s : String, specIdentMatch s = identCore s.data :=
  fun _ => rfl

/-- C2 counterexample: `"a\n"` is outside the language of
`^[A-Za-z_][A-Za-z0-9_]*$`, yet the validator accepts it, because
Python `$` also matches just before a trailing newline. -/
theorem validator_newline_counterexample :
    is_valid_identifier "a\n" = true ∧ specIdentMatch "a\n" = false := by decide

/-- C2 amended. The validator accepts exactly the strings of the spec
pattern `^[A-Za-z_][A-Za-z0-9_]*$` plus those same strings followed by
one trailing newline: it accepts `s` iff `s` matches the pattern or
`s = core ++ "\n"` for some `core` matching the pattern. -/
theorem validator_accepts_core_or_trailing_newline :
    ∀ s : String, is_valid_identifier s = true ↔
      (specIdentMatch s = true ∨
        ∃ core : String, s = core ++ "\n" ∧ specIdentMatch core = true) := by
  intro s
  constructor
  · intro h
    unfold is_valid_identifier at h
    rcases Bool.or_eq_true_iff.mp h with h1 | h2
    · exact Or.inl ((specIdentMatch_eq_identCore s).trans h1)
    · split at h2
      · rename_i rest heq
        refine Or.inr ⟨String.mk rest.reverse, String.ext ?_, ?_⟩
        · have hs : s.data = rest.reverse ++ ['\n'] := by
            have := congrArg List.reverse heq
            simpa using this
          simp [hs, String.data_append]
        · rw [specIdentMatch_eq_identCore]
          simpa using h2
      · exact absurd h2 (by decide)
  · intro h
    rcases h with h | ⟨core, hs, hcore⟩
    · unfold is_valid_identifier
      rw [specIdentMatch_eq_identCore] at h
      simp [h]
    · subst hs
      unfold is_valid_identifier
      have hd : (core ++ ("\n" : String)).data = core.data ++ ['\n'] := by
        simp [String.data_append]
      rw [specIdentMatch_eq_identCore] at hcore
      simp [hd, List.reverse_append, hcore]

/-! ## Claim C3: identifier validation versus connection opening -/

/-- C3 counterexample: a DDL resource read whose schema fails the
validator still opens a warehouse connection — `read_resource` connects
before routing, so validation does not precede the open. -/
theorem ddl_invalid_identifier_still_opens :
    is_valid_identifier "ba d" = false ∧
    (read_resource plainDriver "rs:///ba d/t/ddl").2.opens = 1 := by decide

/-- C3 amended. A DDL or statistic resource read whose schema or table
fails the validator (with a first path segment other than the literal
`schemas`, which the router intercepts by prefix) fails with the
invalid-identifier error wrapped as a runtime error, and no SQL is ever
sent; however the warehouse connection is opened before validation and
closed once afterwards, rather than being skipped. -/
theorem invalid_identifier_fails_after_open_without_sql :
    ∀ (d : Driver) (uri schema table : String),
    pyStartsWith uri "rs://" = true →
    d.connect = true →
    (uriParts uri = [schema, table, "ddl"] ∨ uriParts uri = [schema, table, "statistic"]) →
    schema ≠ "schemas" →
    (is_valid_identifier schema = false ∨ is_valid_identifier table = false) →
    read_resource d uri =
      (.raised ("Redshift Error: Invalid schema or table name: " ++ schema ++ "." ++ table),
        ⟨1, 1, []⟩) := by
  intro d uri schema table hu hc hparts hschema hvalid
  have route_ddl : route d [schema, table, "ddl"] = get_table_ddl d schema table := by
    unfold route
    rw [if_neg (by simp [hschema]), if_neg (by simp), if_pos ⟨rfl, rfl⟩]
    rfl
  have route_stat : route d [schema, table, "statistic"] =
      get_table_statistic d schema table := by
    unfold route
    rw [if_neg (by simp [hschema]), if_neg (by simp), if_neg (by simp), if_pos ⟨rfl, rfl⟩]
    rfl
  unfold read_resource
  rw [if_neg (by simp [hu]), if_neg (by simp [hc])]
  rcases hparts with hp | hp <;> rw [hp]
  · rw [route_ddl]
    unfold get_table_ddl
    rw [if_pos hvalid]
    rfl
  · rw [route_stat]
    unfold get_table_statistic
    rw [if_pos hvalid]
    rfl

/-- C3 witness: an invalid schema in a DDL read at a live driver. -/
theorem invalid_identifier_witness :
    read_resource plainDriver "rs:///ba!/t/ddl" =
      (.raised ("Redshift Error: Invalid schema or table name: " ++ "ba!" ++ "." ++ "t"),
        ⟨1, 1, []⟩) :=
  invalid_identifier_fails_after_open_without_sql plainDriver "rs:///ba!/t/ddl" "ba!" "t"
    (by decide) rfl (Or.inl (by decide)) (by decide) (Or.inl (by decide))

/-! ## Claim C4: routing by shape -/

theorem length_eq_two_shape : ∀ l : List String, l.length = 2 → ∃ a b, l = [a, b] := by
  intro l h
  match l, h with
  | [a, b], _ => exact ⟨a, b, rfl⟩

theorem length_eq_three_shape : ∀ l : List String, l.length = 3 → ∃ a b c, l = [a, b, c] := by
  intro l h
  match l, h with
  | [a, b, c], _ => exact ⟨a, b, c, rfl⟩

set_option maxRecDepth 20000 in
/-- C4 counterexample: the path shape `["schemas", "extra"]` is none of
the four declared shapes, yet the router produces a successful result
text — the first branch tests only `path_parts[0]`, a prefix match. -/
theorem schemas_prefix_match_counterexample :
    (read_resource (catalogDriver demoCatalog) "rs:///schemas/extra").1 =
      .ok (some "finance\npublic") := by decide

/-- C4 amended. For every URI whose path shape is not `[\x22schemas\x22, ...]`
(any path whose first segment is the literal `schemas` is routed to the
schema listing by prefix), not `[schema, \x22tables\x22]`, not
`[schema, table, \x22ddl\x22]` and not `[schema, table, \x22statistic\x22]`, the
router produces no successful result text: the read returns Python
`None` or raises. -/
theorem unrecognized_shape_no_success :
    ∀ (d : Driver) (uri : String) (parts : List String),
    uriParts uri = parts →
    parts.head? ≠ some "schemas" →
    (∀ s, parts ≠ [s, "tables"]) →
    (∀ s t, parts ≠ [s, t, "ddl"]) →
    (∀ s t, parts ≠ [s, t, "statistic"]) →
    isSuccessText (read_resource d uri).1 = false := by
  intro d uri parts hparts hschemas htables hddl hstat
  unfold read_resource
  by_cases hu : pyStartsWith uri "rs://" = false
  · rw [if_pos hu]
    rfl
  · rw [if_neg hu]
    rcases hc : d.connect
    · rfl
    · rw [hparts]
      have hroute : route d parts = (.ok Option.none, []) := by
        unfold route
        rw [if_neg hschemas]
        rw [if_neg (fun h => by
          obtain ⟨hl, hg⟩ := h
          obtain ⟨a, b, rfl⟩ := length_eq_two_shape parts hl
          simp only [List.get?, Option.some.injEq] at hg
          exact htables a (by rw [hg]))]
        rw [if_neg (fun h => by
          obtain ⟨hl, hg⟩ := h
          obtain ⟨a, b, c, rfl⟩ := length_eq_three_shape parts hl
          simp only [List.get?, Option.some.injEq] at hg
          exact hddl a b (by rw [hg]))]
        rw [if_neg (fun h => by
          obtain ⟨hl, hg⟩ := h
          obtain ⟨a, b, c, rfl⟩ := length_eq_three_shape parts hl
          simp only [List.get?, Option.some.injEq] at hg
          exact hstat a b (by rw [hg]))]
      rw [hroute]
      rfl

/-- C4 witness: a four-segment path yields no successful result. -/
theorem unrecognized_shape_witness :
    isSuccessText (read_resource plainDriver "rs:///a/b/c/d").1 = false :=
  unrecognized_shape_no_success plainDriver "rs:///a/b/c/d" ["a", "b", "c", "d"]
    (by decide) (by decide) (fun s => by simp) (fun s t => by simp) (fun s t => by simp)

/-! ## Claim C7: schema listing -/

theorem firstCells_map_singleton : ∀ l : List String,
    firstCells (l.map (fun n => [Scalar.s n])) = .ok (l.map Scalar.s) := by
  intro l
  induction l with
  | nil => rfl
  | cons a as ih => simp [firstCells, ih, Except.map]

theorem joinLinesStr_map_s : ∀ l : List String,
    joinLinesStr (l.map Scalar.s) = .ok (String.intercalate "\n" l) := by
  intro l
  unfold joinLinesStr
  have hm : strCells (l.map Scalar.s) = some l := by
    induction l with
    | nil => rfl
    | cons a as ih => simp [strCells, ih]
  rw [hm]

set_option maxRecDepth 20000 in
/-- C7 counterexample: on the spec scenario catalog the schema listing
returns `"finance\npublic"` — ascending and one name per line, but with
no trailing newline, unlike the claimed `"finance\npublic\n"`. -/
theorem schema_listing_counterexample :
    (read_resource (catalogDriver demoCatalog) "rs:///schemas").1 =
      .ok (some "finance\npublic") ∧
    ("finance\npublic" : String) ≠ "finance\npublic\n" := by decide

set_option maxRecDepth 40000 in
/-- C7 amended. The schema listing returns exactly the catalog names
kept by the filter (names matching `pg_%`, `information_schema` and
`catalog_history` excluded), sorted ascending, joined by single newlines
with no trailing newline; on the spec scenario catalog the output is
`"finance\npublic"`. -/
theorem schema_listing_filtered_sorted :
    (∀ catalog : List String,
      (read_resource (catalogDriver catalog) "rs:///schemas").1 =
        .ok (some (String.intercalate "\n" (schemasQueryRows catalog)))) ∧
    (∀ catalog : List String, List.Sorted strLeP (schemasQueryRows catalog)) ∧
    (∀ (catalog : List String) (n : String),
      n ∈ schemasQueryRows catalog ↔ n ∈ catalog ∧ keepSchema n = true) ∧
    (read_resource (catalogDriver demoCatalog) "rs:///schemas").1 =
      .ok (some "finance\npublic") := by
  refine ⟨?_, ?_, ?_, by decide⟩
  · intro catalog
    have hdrv : (catalogDriver catalog).exec schemas_sql [] =
        .result (some ["schema_name"])
          ((schemasQueryRows catalog).map (fun n => [Scalar.s n])) := by
      simp [catalogDriver]
    have hgs : get_schemas (catalogDriver catalog) =
        (.ok (some (String.intercalate "\n" (schemasQueryRows catalog))), [schemas_sql]) := by
      unfold get_schemas
      simp only [hdrv, firstCells_map_singleton, joinLinesStr_map_s]
    unfold read_resource
    rw [if_neg (by decide), if_neg (by simp [catalogDriver])]
    have hparts : uriParts "rs:///schemas" = ["schemas"] := by decide
    rw [hparts]
    unfold route
    rw [if_pos (show (["schemas"] : List String).head? = some "schemas" from rfl), hgs]
  · intro catalog
    exact List.sorted_insertionSort strLeP _
  · intro catalog n
    unfold schemasQueryRows
    rw [List.mem_insertionSort, List.mem_filter]
